import Mathlib

/-
Verification of the Grover-search demonstration script.

The script is a thin orchestration pipeline: pick a random target index in
[0, 7], format it as a 3-bit string, wrap it into an amplification problem,
build one Grover circuit per candidate iteration count, dispatch the batch to
a simulator or to real hardware depending on a user-supplied mode, and analyse
the returned quasi-probability distributions by arg-max comparison against the
target encoding.  External SDK objects (statevectors, circuits, jobs) are
modelled by the data the script itself supplies to and reads back from them.
-/

namespace GroverSearch

/-! ### Target selector: `format(random_name, '03b')` -/

/-- Binary formatting with zero-padding to width 3, as Python
`format(n, '03b')`: the binary digits of `n` (most significant first,
`"0"` for zero), left-padded with the character `0` to length 3. -/
def format03b (n : Nat) : String :=
  let digits := Nat.toDigits 2 n
  ⟨List.replicate (3 - digits.length) '0' ++ digits⟩

/-- Decoding a bit-string back to the integer it denotes in binary.  This is
the inverse direction of the round-trip contract stated by the spec; the
script itself never decodes, it compares strings. -/
def binStringToNat (s : String) : Nat :=
  s.data.foldl (fun acc c => 2 * acc + (if c = '1' then 1 else 0)) 0

/-! ### Problem builder: `Statevector.from_label` and `AmplificationProblem` -/

/-- A statevector is modelled by the label it was built from
(`Statevector.from_label(random_name_formatted)`). -/
structure Statevector where
  label : String
deriving DecidableEq, Repr

/-- Model of `Statevector.from_label`. -/
def Statevector.from_label (l : String) : Statevector := ⟨l⟩

/-- Model of `AmplificationProblem(oracle, is_good_state=...)`: an opaque
descriptor holding exactly the two arguments the script passes in. -/
structure AmplificationProblem where
  oracle : Statevector
  is_good_state : String
deriving DecidableEq, Repr

/-- The problem built at line 42 of the script:
`AmplificationProblem(oracle, is_good_state=random_name_formatted)` with
`oracle = Statevector.from_label(random_name_formatted)`. -/
def mkUnstructuredSearch (random_name_formatted : String) : AmplificationProblem :=
  { oracle := Statevector.from_label random_name_formatted
    is_good_state := random_name_formatted }

/-! ### Circuit batch builder -/

/-- A Grover circuit is modelled by the data the script hands to the SDK:
the amplification problem it was constructed from, the iteration count, and
whether `measure_all()` has been applied. -/
structure QuantumCircuit where
  problem : AmplificationProblem
  iterations : Nat
  measured : Bool
deriving DecidableEq, Repr

/-- Model of `Grover(iterations=k).construct_circuit(problem)`. -/
def construct_circuit (iterations : Nat) (problem : AmplificationProblem) :
    QuantumCircuit :=
  { problem := problem, iterations := iterations, measured := false }

/-- Model of `quantum_circuit.measure_all()`. -/
def measure_all (c : QuantumCircuit) : QuantumCircuit :=
  { c with measured := true }

/-- The candidate iteration counts, line 52: `values = [0, 1, 2, 3, 4, 5, 6, 7]`. -/
def values : List Nat := [0, 1, 2, 3, 4, 5, 6, 7]

/-- A placeholder circuit used only as the default of `List.getD`. -/
def defaultCircuit : QuantumCircuit :=
  { problem := mkUnstructuredSearch "", iterations := 0, measured := false }

/-- The construction loop, lines 53-57:
`for value in range(0, len(values)):` build a circuit with
`iterations=values[value]`, apply `measure_all`, and append it. -/
def buildGroverCircuits (problem : AmplificationProblem) (vals : List Nat) :
    List QuantumCircuit :=
  (List.range vals.length).map
    (fun value => measure_all (construct_circuit (vals.getD value 0) problem))

/-! ### Result analyzer -/

/-- A quasi-probability distribution, modelled as an insertion-ordered
association list from bit-string labels to (exact) probabilities, standing in
for `result.quasi_dists[i].binary_probabilities()`. -/
abbrev Distribution := List (String × ℚ)

/-- Model of `max(results_dictionary, key=results_dictionary.get)`: the key
whose value is maximal, the earliest such key on ties (CPython `max` replaces
the running maximum only on strictly greater comparison); `none` models the
`ValueError` raised on an empty dictionary. -/
def dictMax (d : Distribution) : Option String :=
  match d with
  | [] => none
  | p :: rest => some (rest.foldl (fun best q => if q.2 > best.2 then q else best) p).1

/-- The per-distribution verdict, line 89:
`'Correct!' if answer == random_name_formatted else 'Failure!'`. -/
def analyzerVerdict (d : Distribution) (random_name_formatted : String) :
    Option String :=
  (dictMax d).map (fun answer =>
    if answer = random_name_formatted then "Correct!" else "Failure!")

/-- The analysis loop, lines 83-90:
`for distribution in range(0, len(result.quasi_dists)):` produce the verdict
for the distribution at that index. -/
def analyzeAll (quasi_dists : List Distribution) (random_name_formatted : String) :
    List (Option String) :=
  (List.range quasi_dists.length).map
    (fun distribution => analyzerVerdict (quasi_dists.getD distribution []) random_name_formatted)

/-! ### Execution dispatcher -/

/-- The three arms of the `if user_option == 1 / elif user_option == 2 / else`
dispatch at lines 65, 95 and 114. -/
inductive DispatchAction where
  | simulate
  | realHardware
  | closeAndExit
deriving DecidableEq, Repr

/-- The dispatch on `user_option = int(input(...))`, lines 63-116. -/
def dispatch (user_option : Int) : DispatchAction :=
  if user_option = 1 then .simulate
  else if user_option = 2 then .realHardware
  else .closeAndExit

/-- Whether an arm submits a job to a backend: the simulator arm calls
`sampler.run(...)` (line 70), the real-hardware arm calls
`backend_real_device.run(...)` (line 103), the `else` arm only prints
`"Closing program!"` and calls `exit()` (lines 115-116). -/
def submitsJob : DispatchAction → Bool
  | .simulate => true
  | .realHardware => true
  | .closeAndExit => false

/-! ### The real-hardware branch as a step sequence

Python resolves global names at call time, so a statement in the branch fails
with a `NameError` exactly when it calls a module-level name that no
active import (or definition) bound.  Each step records which module-level name it
calls, if any; attribute lookups on local objects (`provider.get_backend`,
`job.result`, ...) need no module-level name. -/

/-- One statement of the real-hardware branch. -/
structure Step where
  name : String
  requiresName : Option String
deriving DecidableEq, Repr

/-- The module-level names bound by the active imports and definitions of the
script (lines 13-30).  The `job_monitor` import at line 23 is commented out,
so `job_monitor` is absent. -/
def importedNames : List String :=
  ["random", "getenv", "load_dotenv", "math", "plt",
   "transpile", "assemble", "IBMQ", "Statevector",
   "AmplificationProblem", "Grover", "QiskitRuntimeService", "Sampler",
   "Session", "plot_histogram", "TOKEN", "print_quantum_circuits"]

/-- The statements of the real-hardware branch, lines 96-110, in order. -/
def realHardwareSteps : List Step :=
  [⟨"save_account", some "IBMQ"⟩,
   ⟨"load_account", some "IBMQ"⟩,
   ⟨"get_provider", some "IBMQ"⟩,
   ⟨"get_backend_for_submission", none⟩,
   ⟨"print_backend", none⟩,
   ⟨"transpile", some "transpile"⟩,
   ⟨"assemble", some "assemble"⟩,
   ⟨"submit_job", none⟩,
   ⟨"job_monitor", some "job_monitor"⟩,
   ⟨"retrieve_job", none⟩,
   ⟨"job_result", none⟩,
   ⟨"result_result", none⟩]

/-- Run a step sequence in an environment of bound module-level names:
returns the names of the steps that executed, and `some msg` when a step
raised a `NameError` (the remaining steps do not execute). -/
def runSteps (env : List String) : List Step → List String × Option String
  | [] => ([], none)
  | s :: rest =>
    match s.requiresName with
    | some n =>
      if n ∈ env then
        let r := runSteps env rest
        (s.name :: r.1, r.2)
      else
        ([], some ("NameError: name " ++ n ++ " is not defined"))
    | none =>
      let r := runSteps env rest
      (s.name :: r.1, r.2)

/-! ### Backend-name strings of the real-hardware branch -/

/-- One `provider.get_backend(...)` call: its purpose and the backend-name
string passed to it. -/
structure BackendCall where
  purpose : String
  backendName : String
deriving DecidableEq, Repr

/-- Line 99: `provider.get_backend('ibm_oslo')`, the submission backend. -/
def submissionBackendCall : BackendCall := ⟨"submission", "ibm_oslo"⟩

/-- Line 105: `provider.get_backend('ibm-oslo').retrieve_job(job.job_id())`. -/
def retrievalBackendCall : BackendCall := ⟨"retrieval", "ibm-oslo"⟩

/-- All `get_backend` calls of the real-hardware branch, in program order. -/
def getBackendCalls : List BackendCall :=
  [submissionBackendCall, retrievalBackendCall]

/-! ### Reported iteration counts -/

/-- Line 86 prints the result at index `distribution` as obtained
`With (distribution + 1) iterations`. -/
def reportedIterations (distribution : Nat) : Nat := distribution + 1

/-! ### Helper lemmas about the circuit batch -/

/-- Every circuit of a batch carries exactly the problem the batch was built
from. -/
theorem problem_of_mem_build (p : AmplificationProblem) (vals : List Nat)
    (c : QuantumCircuit) (hc : c ∈ buildGroverCircuits p vals) :
    c.problem = p := by
  simp only [buildGroverCircuits, List.mem_map, List.mem_range] at hc
  obtain ⟨i, _, rfl⟩ := hc
  rfl

/-- The circuit at index `i` of a batch was built with the iteration count at
index `i` of the input sequence, and carries its measurement step. -/
theorem build_getD (p : AmplificationProblem) (vals : List Nat) (i : Nat)
    (h : i < vals.length) :
    (buildGroverCircuits p vals).getD i defaultCircuit
      = measure_all (construct_circuit (vals.getD i 0) p) := by
  simp [buildGroverCircuits, List.getD, List.getElem?_map, List.getElem?_range, h]

/-! ### Claim theorems -/

/-- C1: the analyzer reports `"Correct!"` exactly when the arg-max label of
the distribution equals the target encoding, and `"Failure!"` exactly when it
differs; in particular a distribution holding probability 1 on the target
label alone yields `"Correct!"`. -/
theorem analyzer_verdict_characterization (d : Distribution) (target a : String)
    (h : dictMax d = some a) :
    (analyzerVerdict d target = some "Correct!" ↔ a = target)
    ∧ (analyzerVerdict d target = some "Failure!" ↔ a ≠ target)
    ∧ analyzerVerdict [(target, (1 : ℚ))] target = some "Correct!" := by
  have hne : ("Correct!" : String) ≠ "Failure!" := by decide
  simp only [analyzerVerdict, h, Option.map_some', Option.some.injEq]
  by_cases hat : a = target
  · simp [hat, dictMax]
  · simp [hat, dictMax, hne, Ne.symm hne]

/-- Witness for C1 at the point-mass distribution on the target label. -/
theorem analyzer_verdict_characterization_witness :
    (analyzerVerdict [("101", (1 : ℚ))] "101" = some "Correct!" ↔ "101" = "101")
    ∧ (analyzerVerdict [("101", (1 : ℚ))] "101" = some "Failure!" ↔ "101" ≠ "101")
    ∧ analyzerVerdict [("101", (1 : ℚ))] "101" = some "Correct!" :=
  analyzer_verdict_characterization [("101", (1 : ℚ))] "101" "101" (by decide)

/-- C2: for every target index in [0, 7], the 3-bit zero-padded encoding
decodes back to the index, its width is exactly 3, and that same encoding is
the good-state string of every circuit in the batch, across all candidate
iteration counts. -/
theorem encoding_roundtrip (i : Nat) (h : i < 8) :
    binStringToNat (format03b i) = i
    ∧ (format03b i).length = 3
    ∧ ∀ c ∈ buildGroverCircuits (mkUnstructuredSearch (format03b i)) values,
        c.problem.is_good_state = format03b i := by
  refine ⟨?_, ?_, ?_⟩
  · revert i; decide
  · revert i; decide
  · intro c hc
    rw [problem_of_mem_build (mkUnstructuredSearch (format03b i)) values c hc]
    rfl

/-- Witness for C2 at target index 5. -/
theorem encoding_roundtrip_witness :
    binStringToNat (format03b 5) = 5
    ∧ (format03b 5).length = 3
    ∧ ∀ c ∈ buildGroverCircuits (mkUnstructuredSearch (format03b 5)) values,
        c.problem.is_good_state = format03b 5 :=
  encoding_roundtrip 5 (by decide)

/-- C3: the batch has one circuit per candidate iteration count, the circuit
at index `i` was built with the count at index `i`, and every circuit carries
the terminal measurement. -/
theorem circuit_batch_aligned (p : AmplificationProblem) (vals : List Nat)
    (i : Nat) (h : i < vals.length) :
    (buildGroverCircuits p vals).length = vals.length
    ∧ ((buildGroverCircuits p vals).getD i defaultCircuit).iterations = vals.getD i 0
    ∧ ((buildGroverCircuits p vals).getD i defaultCircuit).measured = true := by
  refine ⟨by simp [buildGroverCircuits], ?_, ?_⟩ <;>
    rw [build_getD p vals i h] <;> rfl

/-- Witness for C3 at index 2 of the candidate counts of the script. -/
theorem circuit_batch_aligned_witness :
    (buildGroverCircuits (mkUnstructuredSearch "101") values).length = values.length
    ∧ ((buildGroverCircuits (mkUnstructuredSearch "101") values).getD 2 defaultCircuit).iterations
        = values.getD 2 0
    ∧ ((buildGroverCircuits (mkUnstructuredSearch "101") values).getD 2 defaultCircuit).measured
        = true :=
  circuit_batch_aligned (mkUnstructuredSearch "101") values 2 (by decide)

/-- C4: any mode other than 1 or 2 takes the `else` arm, which submits no
job. -/
theorem unrecognized_mode_exits (u : Int) (h1 : u ≠ 1) (h2 : u ≠ 2) :
    dispatch u = .closeAndExit ∧ submitsJob (dispatch u) = false := by
  have hd : dispatch u = .closeAndExit := by simp [dispatch, h1, h2]
  exact ⟨hd, by rw [hd]; rfl⟩

/-- Witness for C4 at mode 3. -/
theorem unrecognized_mode_exits_witness :
    dispatch 3 = .closeAndExit ∧ submitsJob (dispatch 3) = false :=
  unrecognized_mode_exits 3 (by decide) (by decide)

/-- C5 counterexample: not every candidate iteration count is positive — the
first entry of `values` is 0. -/
theorem values_not_all_positive : ¬ (∀ v ∈ values, 0 < v) := by decide

/-- C5 amended: every iteration count in the candidate sequence is a
nonnegative integer at most 7 (the first is 0, the rest are positive), one
per circuit in the batch. -/
theorem values_nonneg_one_per_circuit :
    values.all (fun v => decide (v ≤ 7)) = true
    ∧ values.tail.all (fun v => decide (0 < v)) = true
    ∧ (buildGroverCircuits (mkUnstructuredSearch "000") values).length = values.length := by
  decide

/-- C6: the real-hardware branch submits the job, but the next statement
calls `job_monitor`, whose import at line 23 is commented out, so the branch
stops with a `NameError` and never reaches the job-retrieval or
result-retrieval steps. -/
theorem real_hardware_branch_crashes :
    (runSteps importedNames realHardwareSteps).2
      = some "NameError: name job_monitor is not defined"
    ∧ "submit_job" ∈ (runSteps importedNames realHardwareSteps).1
    ∧ "retrieve_job" ∉ (runSteps importedNames realHardwareSteps).1
    ∧ "job_result" ∉ (runSteps importedNames realHardwareSteps).1 := by
  decide

/-- C7: the analyzer emits exactly one verdict per returned distribution, and
the verdict at index `i` is computed from the distribution at index `i`. -/
theorem analyzer_index_aligned (quasi_dists : List Distribution) (target : String)
    (i : Nat) (h : i < quasi_dists.length) :
    (analyzeAll quasi_dists target).length = quasi_dists.length
    ∧ (analyzeAll quasi_dists target).getD i none
        = analyzerVerdict (quasi_dists.getD i []) target := by
  constructor
  · simp [analyzeAll]
  · simp [analyzeAll, List.getD, List.getElem?_map, List.getElem?_range, h]

/-- Witness for C7 with a batch of two distributions, at index 1. -/
theorem analyzer_index_aligned_witness :
    (analyzeAll [[("000", (1 : ℚ))], [("101", (1 : ℚ))]] "101").length
      = ([[("000", (1 : ℚ))], [("101", (1 : ℚ))]] : List Distribution).length
    ∧ (analyzeAll [[("000", (1 : ℚ))], [("101", (1 : ℚ))]] "101").getD 1 none
        = analyzerVerdict (([[("000", (1 : ℚ))], [("101", (1 : ℚ))]] : List Distribution).getD 1 []) "101" :=
  analyzer_index_aligned [[("000", (1 : ℚ))], [("101", (1 : ℚ))]] "101" 1 (by decide)

/-- C8: the problem builder only wraps the encoding (oracle built from the
label, good state equal to the label), and every circuit build receives that
descriptor unchanged. -/
theorem problem_descriptor_unchanged (encoding : String) (vals : List Nat)
    (c : QuantumCircuit)
    (hc : c ∈ buildGroverCircuits (mkUnstructuredSearch encoding) vals) :
    c.problem = mkUnstructuredSearch encoding
    ∧ (mkUnstructuredSearch encoding).oracle = Statevector.from_label encoding
    ∧ (mkUnstructuredSearch encoding).is_good_state = encoding :=
  ⟨problem_of_mem_build (mkUnstructuredSearch encoding) vals c hc, rfl, rfl⟩

/-- Witness for C8 at the first circuit of a two-count batch. -/
theorem problem_descriptor_unchanged_witness :
    (measure_all (construct_circuit 0 (mkUnstructuredSearch "011"))).problem
      = mkUnstructuredSearch "011"
    ∧ (mkUnstructuredSearch "011").oracle = Statevector.from_label "011"
    ∧ (mkUnstructuredSearch "011").is_good_state = "011" :=
  problem_descriptor_unchanged "011" [0, 1]
    (measure_all (construct_circuit 0 (mkUnstructuredSearch "011"))) (by decide)

/-- C9: the retrieval call uses the hyphen spelling `ibm-oslo`, the
submission resolution uses `ibm_oslo`, the two strings differ, and the hyphen
spelling occurs in no `get_backend` call other than the retrieval one. -/
theorem backend_name_mismatch :
    retrievalBackendCall.backendName = "ibm-oslo"
    ∧ submissionBackendCall.backendName = "ibm_oslo"
    ∧ retrievalBackendCall.backendName ≠ submissionBackendCall.backendName
    ∧ getBackendCalls.all
        (fun c => !(c.backendName == "ibm-oslo") || (c.purpose == "retrieval")) = true := by
  decide

/-- C10: the report claims `i + 1` iterations for the result at index `i`,
but the circuit at index `i` was built with `values[i] = i` iterations, so
every reported count exceeds the actual count by exactly one. -/
theorem reported_iterations_off_by_one (p : AmplificationProblem) (i : Nat)
    (h : i < values.length) :
    values.getD i 0 = i
    ∧ ((buildGroverCircuits p values).getD i defaultCircuit).iterations = values.getD i 0
    ∧ reportedIterations i
        = ((buildGroverCircuits p values).getD i defaultCircuit).iterations + 1 := by
  have hv : values.getD i 0 = i := by revert i; decide
  have hb : ((buildGroverCircuits p values).getD i defaultCircuit).iterations
      = values.getD i 0 := by rw [build_getD p values i h]; rfl
  exact ⟨hv, hb, by rw [hb, hv]; rfl⟩

/-- Witness for C10 at index 3. -/
theorem reported_iterations_off_by_one_witness :
    values.getD 3 0 = 3
    ∧ ((buildGroverCircuits (mkUnstructuredSearch "101") values).getD 3 defaultCircuit).iterations
        = values.getD 3 0
    ∧ reportedIterations 3
        = ((buildGroverCircuits (mkUnstructuredSearch "101") values).getD 3 defaultCircuit).iterations + 1 :=
  reported_iterations_off_by_one (mkUnstructuredSearch "101") 3 (by decide)

end GroverSearch
